import Mathlib

/-
Verification of the SharpGlass repository: two command-line image utilities,
src/process_icon.py (Icon Rounder) and src/resize_icons.py (Icon Resizer).

Shallow embedding notes:
* An in-memory raster is a structure with width, height, a PIL mode string,
  and a total pixel function.  Machine pixel values are plain Nat.
* The Pillow primitives the scripts call are modelled from their documented
  semantics: Image.open / save become an environment of fallible operations,
  Image.resize produces an image of exactly the requested dimensions with the
  source mode (the Lanczos kernel itself is abstracted by a simple resampling
  stand-in, since no claim depends on interpolated pixel values), and
  ImageDraw.rounded_rectangle is modelled geometrically: with the Pillow
  convention that rectangle coordinates are inclusive, a pixel at integer
  point (x, y) is filled iff its distance to the core rectangle
  [r, w - r] x [r, h - r] is at most r, which is exactly membership in the
  rounded rectangle spanning [0, w] x [0, h] with corner radius r (boundary
  inclusive, matching the aliased fill).
* Each script run is a pure function from an environment (what loading the
  input yields, which saves succeed) to a RunResult: the ordered list of
  files written, the stdout lines printed, and the process exit code.
-/

namespace SharpGlass

/-- One RGBA pixel; for single-channel (mode L) images the gray value is
stored in every field and read back through grayAt. -/
structure Pixel where
  r : Nat
  g : Nat
  b : Nat
  a : Nat
deriving DecidableEq

/-- An in-memory raster image: dimensions, PIL mode string, pixel function. -/
structure Image where
  width : Nat
  height : Nat
  mode : String
  pix : Nat → Nat → Pixel

/-- Alpha channel value at pixel (x, y). -/
def alphaAt (img : Image) (x y : Nat) : Nat := (img.pix x y).a

/-- Gray value of a single-channel image at pixel (x, y). -/
def grayAt (img : Image) (x y : Nat) : Nat := (img.pix x y).r

/-- Environment of the fallible library operations a run performs:
load is Image.open (plus decoding), saveOk p is none when saving to path p
succeeds and some msg when it raises an exception with message msg. -/
structure Env where
  load : String → Except String Image
  saveOk : String → Option String

/-- Observable outcome of one script run: files written in order, stdout
lines printed in order, and the process exit status. -/
structure RunResult where
  written : List (String × Image)
  printed : List String
  exitCode : Nat

/-! ## Icon Resizer: src/resize_icons.py -/

/-- The fixed size list from resize_icons.py line 7. -/
def sizes : List Nat := [16, 32, 64, 128, 256, 512]

/-- Stand-in for the interpolated pixel content of a Lanczos resize; the
kernel is library code and no claim depends on interpolated values, only on
the dimensions and mode of the result. -/
def resamplePix (img : Image) (w h : Nat) : Nat → Nat → Pixel :=
  fun x y => img.pix (x * img.width / w) (y * img.height / h)

/-- PIL Image.resize to (w, h): the result has exactly the requested
dimensions and the mode of the source; when the requested size equals the
source size Pillow returns a copy, so the pixel content is unchanged. -/
def pilResize (img : Image) (w h : Nat) : Image :=
  { width := w, height := h, mode := img.mode,
    pix := if img.width = w ∧ img.height = h then img.pix else resamplePix img w h }

/-- Output file name used by resize_icons.py lines 12 and 17:
the f-string output_dir/icon_{s}x{s} followed by ".png" or "@2x.png". -/
def iconFileName (dir : String) (s : Nat) (suffix : String) : String :=
  dir ++ ("/icon_" ++ (toString s ++ ("x" ++ (toString s ++ suffix))))

/-- The full list of (path, image) saves the resizer loop attempts for a
given size list, in program order: for each size s, first the 1x file at
s x s, then the 2x file at 2s x 2s. -/
def expectedSaves (img : Image) (dir : String) : List Nat → List (String × Image)
  | [] => []
  | s :: rest =>
      (iconFileName dir s ".png", pilResize img s s)
        :: (iconFileName dir s "@2x.png", pilResize img (s * 2) (s * 2))
        :: expectedSaves img dir rest

/-- The loop body of resize_icon (lines 9-17): for each size save the 1x
then the 2x variant; the first save that raises aborts the loop, and the
surrounding except handler prints the message and returns normally
(lines 20-21), so the exit code is 0 on every path. -/
def resizeLoop (env : Env) (img : Image) (dir : String) : List Nat → RunResult
  | [] => ⟨[], ["Resized all icons."], 0⟩
  | s :: rest =>
      match env.saveOk (iconFileName dir s ".png") with
      | some e => ⟨[], ["Error: " ++ e], 0⟩
      | none =>
          match env.saveOk (iconFileName dir s "@2x.png") with
          | some e => ⟨[(iconFileName dir s ".png", pilResize img s s)],
                       ["Error: " ++ e], 0⟩
          | none =>
              let rest' := resizeLoop env img dir rest
              ⟨(iconFileName dir s ".png", pilResize img s s)
                 :: (iconFileName dir s "@2x.png", pilResize img (s * 2) (s * 2))
                 :: rest'.written,
               rest'.printed, rest'.exitCode⟩

/-- resize_icon (resize_icons.py lines 4-21): open the input inside the try
block; on any exception print "Error: ..." and return (exit code 0). -/
def resize_icon (env : Env) (input_path output_dir : String) : RunResult :=
  match env.load input_path with
  | Except.error e => ⟨[], ["Error: " ++ e], 0⟩
  | Except.ok img => resizeLoop env img output_dir sizes

/-- The __main__ block of resize_icons.py (lines 23-24): sys.argv is indexed
outside any try block, so with fewer than two command-line arguments the
IndexError is uncaught, the interpreter prints a traceback to stderr and the
process exits with status 1; otherwise resize_icon runs. -/
def resize_main (env : Env) (argv : List String) : RunResult :=
  if argv.length < 3 then ⟨[], [], 1⟩
  else resize_icon env (argv.getD 1 "") (argv.getD 2 "")

/-! ## Icon Rounder: src/process_icon.py -/

/-- The default value of the corner_radius_ratio parameter of
create_rounded_icon (process_icon.py line 4): 0.22. -/
def defaultCornerRatio : ℚ := 11 / 50

/-- PIL convert("RGBA") (process_icon.py line 7): same dimensions, mode
becomes RGBA; the per-channel value conversion is library code and no claim
depends on it, so the pixel function is carried over unchanged. -/
def convertRGBA (img : Image) : Image :=
  { width := img.width, height := img.height, mode := "RGBA", pix := img.pix }

/-- The corner radius computed on process_icon.py line 16:
min(w, h) * corner_radius_ratio. -/
def radiusUsed (img : Image) (ratio : ℚ) : ℚ :=
  ((min img.width img.height : Nat) : ℚ) * ratio

/-- Membership of the integer pixel point (x, y) in the rounded rectangle
drawn by ImageDraw.rounded_rectangle on the box [(0, 0), (w, h)] with the
given radius (process_icon.py line 17).  Pillow box coordinates are
inclusive, so the region spans [0, w] x [0, h]; a point is in the region iff
its distance to the core rectangle [radius, w - radius] x [radius, h - radius]
is at most radius, and the aliased fill includes the boundary. -/
def inRoundedRect (w h : Nat) (radius : ℚ) (x y : Nat) : Bool :=
  decide
    (((x : ℚ) - max radius (min (x : ℚ) ((w : ℚ) - radius))) ^ 2
      + ((y : ℚ) - max radius (min (y : ℚ) ((h : ℚ) - radius))) ^ 2
      ≤ radius ^ 2)

/-- The grayscale mask built on process_icon.py lines 11-17: a mode L image
of the same size as the source, value 255 on pixels inside the rounded
rectangle and 0 elsewhere (the background fill of Image.new). -/
def roundedRectMask (w h : Nat) (radius : ℚ) : Image :=
  { width := w, height := h, mode := "L",
    pix := fun x y =>
      let v := if inRoundedRect w h radius x y then 255 else 0
      ⟨v, v, v, v⟩ }

/-- The mask the rounder builds for a given source image and ratio
(process_icon.py lines 11-17, using the size of the converted image). -/
def maskOf (img : Image) (ratio : ℚ) : Image :=
  roundedRectMask (convertRGBA img).width (convertRGBA img).height
    (radiusUsed img ratio)

/-- PIL ImageOps.fit to size (w, h) with centering (0.5, 0.5)
(process_icon.py line 20): the result always has exactly the requested
dimensions; when the requested size equals the source size the crop box is
the whole image and Image.resize returns a copy, so the pixel content is
unchanged, otherwise the content is a centered crop resampled to size
(abstracted by the resampling stand-in; unused by this repository, which
always passes the source size). -/
def imageOpsFit (img : Image) (w h : Nat) : Image :=
  { width := w, height := h, mode := img.mode,
    pix := if img.width = w ∧ img.height = h then img.pix else resamplePix img w h }

/-- PIL putalpha (process_icon.py line 21): replace the alpha channel of the
image with the gray values of the mask; the result is RGBA. -/
def putalpha (img mask : Image) : Image :=
  { width := img.width, height := img.height, mode := "RGBA",
    pix := fun x y =>
      let p := img.pix x y
      ⟨p.r, p.g, p.b, grayAt mask x y⟩ }

/-- The pure image transformation of create_rounded_icon (process_icon.py
lines 7-21): convert to RGBA, build the rounded-rectangle mask at the size
of the image, fit the image to the mask size, replace the alpha channel. -/
def roundedOutput (img : Image) (ratio : ℚ) : Image :=
  let rgba := convertRGBA img
  let mask := maskOf img ratio
  let fitted := imageOpsFit rgba mask.width mask.height
  putalpha fitted mask

/-- create_rounded_icon (process_icon.py lines 4-29): any exception during
load or save is caught, "Error processing image: ..." is printed and
sys.exit(1) is called; on success the output file is written, the success
message is printed and the function returns (exit code 0). -/
def create_rounded_icon (env : Env) (input_path output_path : String)
    (ratio : ℚ) : RunResult :=
  match env.load input_path with
  | Except.error e => ⟨[], ["Error processing image: " ++ e], 1⟩
  | Except.ok img =>
      match env.saveOk output_path with
      | some e => ⟨[], ["Error processing image: " ++ e], 1⟩
      | none =>
          ⟨[(output_path, roundedOutput img ratio)],
           ["Created processed icon at " ++ output_path], 0⟩

/-- The __main__ block of process_icon.py (lines 31-36): with fewer than two
command-line arguments print the usage line and exit 1, otherwise call
create_rounded_icon with the two paths and the default ratio (the CLI
provides no way to pass a different ratio). -/
def process_icon_main (env : Env) (argv : List String) : RunResult :=
  if argv.length < 3 then
    ⟨[], ["Usage: python3 process_icon.py <input> <output>"], 1⟩
  else create_rounded_icon env (argv.getD 1 "") (argv.getD 2 "") defaultCornerRatio

/-! ## Concrete test fixtures used by witnesses and counterexamples -/

/-- A concrete 100 x 100 RGB source image. -/
def testImg : Image := ⟨100, 100, "RGB", fun _ _ => ⟨10, 20, 30, 40⟩⟩

/-- A concrete 4 x 4 RGBA source image. -/
def img4 : Image := ⟨4, 4, "RGBA", fun _ _ => ⟨0, 0, 0, 255⟩⟩

/-- A concrete 1 x 1 RGBA source image. -/
def img1 : Image := ⟨1, 1, "RGBA", fun _ _ => ⟨0, 0, 0, 255⟩⟩

/-- An environment in which loading yields testImg and every save succeeds. -/
def envAllOk : Env := ⟨fun _ => Except.ok testImg, fun _ => none⟩

/-- An environment in which loading yields testImg and exactly the save of
the second file of the resizer (the 16 x 16 2x variant in directory "out")
raises a disk full error. -/
def envDiskFull : Env :=
  ⟨fun _ => Except.ok testImg,
   fun p => if p = iconFileName "out" 16 "@2x.png" then some "disk full" else none⟩

/-! ## Lemmas about the resizer loop -/

/-- When every save succeeds, the loop writes exactly the expected saves,
prints the summary line, and exits 0. -/
theorem resizeLoop_allOk (env : Env) (img : Image) (dir : String)
    (hs : ∀ p, env.saveOk p = none) (l : List Nat) :
    resizeLoop env img dir l
      = ⟨expectedSaves img dir l, ["Resized all icons."], 0⟩ := by
  induction l with
  | nil => rfl
  | cons s rest ih => simp [resizeLoop, hs, expectedSaves, ih]

/-- The loop always exits 0 and prints either the summary line or a single
error line. -/
theorem resizeLoop_exit (env : Env) (img : Image) (dir : String)
    (l : List Nat) :
    (resizeLoop env img dir l).exitCode = 0 ∧
    ((resizeLoop env img dir l).printed = ["Resized all icons."] ∨
      ∃ e, (resizeLoop env img dir l).printed = ["Error: " ++ e]) := by
  induction l with
  | nil => exact ⟨rfl, Or.inl rfl⟩
  | cons s rest ih =>
      cases h1 : env.saveOk (iconFileName dir s ".png") with
      | some e1 =>
          exact ⟨by simp [resizeLoop, h1], Or.inr ⟨e1, by simp [resizeLoop, h1]⟩⟩
      | none =>
          cases h2 : env.saveOk (iconFileName dir s "@2x.png") with
          | some e2 =>
              exact ⟨by simp [resizeLoop, h1, h2],
                     Or.inr ⟨e2, by simp [resizeLoop, h1, h2]⟩⟩
          | none => simpa [resizeLoop, h1, h2] using ih

/-- Whatever save fails, the files actually written are an initial segment
of the expected saves: everything before the failure point, nothing after. -/
theorem resizeLoop_written_take (env : Env) (img : Image) (dir : String)
    (l : List Nat) :
    ∃ k, k ≤ (expectedSaves img dir l).length ∧
      (resizeLoop env img dir l).written = (expectedSaves img dir l).take k := by
  induction l with
  | nil => exact ⟨0, by simp [expectedSaves, resizeLoop]⟩
  | cons s rest ih =>
      cases h1 : env.saveOk (iconFileName dir s ".png") with
      | some e1 =>
          exact ⟨0, by simp [expectedSaves], by simp [resizeLoop, h1]⟩
      | none =>
          cases h2 : env.saveOk (iconFileName dir s "@2x.png") with
          | some e2 =>
              exact ⟨1, by simp [expectedSaves],
                     by simp [resizeLoop, h1, h2, expectedSaves]⟩
          | none =>
              obtain ⟨k, hk, hw⟩ := ih
              refine ⟨k + 1 + 1, by simp [expectedSaves]; omega, ?_⟩
              simp [resizeLoop, h1, h2, expectedSaves, hw]

/-- Every image appearing in the expected saves keeps the mode of the
source image. -/
theorem expectedSaves_mode (img : Image) (dir : String) (l : List Nat)
    (p : String) (im : Image)
    (hm : (p, im) ∈ expectedSaves img dir l) : im.mode = img.mode := by
  induction l with
  | nil => simp [expectedSaves] at hm
  | cons s rest ih =>
      simp only [expectedSaves, List.mem_cons, Prod.mk.injEq] at hm
      rcases hm with h | h | h
      · rw [h.2]; rfl
      · rw [h.2]; rfl
      · exact ih h

/-! ## Claims about the Icon Resizer -/

/-- C1: for every valid input image and writable output directory, the
resizer writes exactly 12 PNG files named icon_NxN.png and icon_NxN@2x.png
for N in 16, 32, 64, 128, 256, 512, the 1x file at N x N and the 2x file at
2N x 2N, in ascending nominal size with 1x before 2x within each size. -/
theorem claim1_resizer_writes_twelve_icons (env : Env) (inp dir : String)
    (img : Image) (hload : env.load inp = Except.ok img)
    (hsave : ∀ p, env.saveOk p = none) :
    (resize_icon env inp dir).written =
      [(dir ++ "/icon_16x16.png", pilResize img 16 16),
       (dir ++ "/icon_16x16@2x.png", pilResize img 32 32),
       (dir ++ "/icon_32x32.png", pilResize img 32 32),
       (dir ++ "/icon_32x32@2x.png", pilResize img 64 64),
       (dir ++ "/icon_64x64.png", pilResize img 64 64),
       (dir ++ "/icon_64x64@2x.png", pilResize img 128 128),
       (dir ++ "/icon_128x128.png", pilResize img 128 128),
       (dir ++ "/icon_128x128@2x.png", pilResize img 256 256),
       (dir ++ "/icon_256x256.png", pilResize img 256 256),
       (dir ++ "/icon_256x256@2x.png", pilResize img 512 512),
       (dir ++ "/icon_512x512.png", pilResize img 512 512),
       (dir ++ "/icon_512x512@2x.png", pilResize img 1024 1024)] ∧
    (∀ n m : Nat, (pilResize img n m).width = n ∧ (pilResize img n m).height = m) := by
  refine ⟨?_, fun n m => ⟨rfl, rfl⟩⟩
  have h := resizeLoop_allOk env img dir hsave sizes
  simp only [resize_icon, hload, h]
  rfl

/-- Witness for C1 at a concrete image and environment. -/
theorem claim1_witness :
    (resize_icon envAllOk "in.png" "out").written.length = 12 ∧
    (pilResize testImg 16 16).width = 16 := by
  have h := claim1_resizer_writes_twelve_icons envAllOk "in.png" "out" testImg
    rfl (fun _ => rfl)
  exact ⟨by rw [h.1]; rfl, (h.2 16 16).1⟩

/-- C4 counterexample: invoking the resizer with one command-line argument
makes sys.argv indexing raise an uncaught IndexError, so the process exits
with status 1, refuting the claim that every invocation exits 0. -/
theorem claim4_counterexample :
    (resize_main envAllOk ["resize_icons.py", "input.png"]).exitCode = 1 := rfl

/-- C4 (amended): for every invocation supplying at least two command-line
arguments, the resizer exits with status 0, printing the summary line on
success or an Error line on failure; invocations missing an argument crash
before the try block and exit 1. -/
theorem claim4_resizer_exit_zero_amended (env : Env) (argv : List String)
    (h : 3 ≤ argv.length) :
    (resize_main env argv).exitCode = 0 ∧
    ((resize_main env argv).printed = ["Resized all icons."] ∨
      ∃ e, (resize_main env argv).printed = ["Error: " ++ e]) := by
  simp only [resize_main, if_neg (by omega : ¬ argv.length < 3)]
  cases hl : env.load (argv.getD 1 "") with
  | error e =>
      exact ⟨by simp only [resize_icon, hl],
             Or.inr ⟨e, by simp only [resize_icon, hl]⟩⟩
  | ok img =>
      simp only [resize_icon, hl]
      exact resizeLoop_exit env img (argv.getD 2 "") sizes

/-- Witness for C4 (amended) at a concrete environment and argument list. -/
theorem claim4_witness :
    (resize_main envAllOk ["resize_icons.py", "input.png", "out"]).exitCode = 0 := by
  exact (claim4_resizer_exit_zero_amended envAllOk
    ["resize_icons.py", "input.png", "out"] (by decide)).1

/-- C6: any exception in the load/resize/save loop is caught and the
function returns with exit code 0; on a load failure nothing is written and
the error is printed, and on any save failure the files written are exactly
an initial segment of the 12 expected files: everything saved before the
failure remains, nothing later is created. -/
theorem claim6_resizer_exception_prefix (env : Env) (inp dir : String) :
    (resize_icon env inp dir).exitCode = 0 ∧
    (∀ e, env.load inp = Except.error e →
      (resize_icon env inp dir).written = [] ∧
      (resize_icon env inp dir).printed = ["Error: " ++ e]) ∧
    (∀ img, env.load inp = Except.ok img →
      ∃ k, k ≤ 12 ∧
        (resize_icon env inp dir).written
          = (expectedSaves img dir sizes).take k) := by
  refine ⟨?_, ?_, ?_⟩
  · cases hl : env.load inp with
    | error e => simp only [resize_icon, hl]
    | ok img =>
        simp only [resize_icon, hl]
        exact (resizeLoop_exit env img dir sizes).1
  · intro e he
    exact ⟨by simp only [resize_icon, he], by simp only [resize_icon, he]⟩
  · intro img hi
    obtain ⟨k, hk, hw⟩ := resizeLoop_written_take env img dir sizes
    refine ⟨k, ?_, by simp only [resize_icon, hi, hw]⟩
    have hlen : (expectedSaves img dir sizes).length = 12 := rfl
    omega

/-- Witness for C6 at an environment whose second save raises. -/
theorem claim6_witness :
    (resize_icon envDiskFull "in.png" "out").exitCode = 0 ∧
    ∃ k, k ≤ 12 ∧
      (resize_icon envDiskFull "in.png" "out").written
        = (expectedSaves testImg "out" sizes).take k := by
  have h := claim6_resizer_exception_prefix envDiskFull "in.png" "out"
  exact ⟨h.1, h.2.2 testImg rfl⟩

/-- C10: the resizer performs no mode conversion, so every output image is
saved in the color mode of the loaded source image. -/
theorem claim10_resizer_preserves_mode (env : Env) (inp dir : String)
    (img : Image) (hload : env.load inp = Except.ok img)
    (p : String) (im : Image)
    (hm : (p, im) ∈ (resize_icon env inp dir).written) :
    im.mode = img.mode := by
  obtain ⟨k, hk, hw⟩ := resizeLoop_written_take env img dir sizes
  have hmem : (p, im) ∈ expectedSaves img dir sizes := by
    simp only [resize_icon, hload] at hm
    rw [hw] at hm
    exact (List.take_sublist _ _).subset hm
  exact expectedSaves_mode img dir sizes p im hmem

/-- Witness for C10 at a concrete image, environment and written file. -/
theorem claim10_witness : (pilResize testImg 16 16).mode = testImg.mode := by
  refine claim10_resizer_preserves_mode envAllOk "in.png" "out" testImg rfl
    (iconFileName "out" 16 ".png") (pilResize testImg 16 16) ?_
  have h : (resize_icon envAllOk "in.png" "out").written
      = expectedSaves testImg "out" sizes := by
    rw [show resize_icon envAllOk "in.png" "out"
          = resizeLoop envAllOk testImg "out" sizes from rfl,
        resizeLoop_allOk envAllOk testImg "out" (fun _ => rfl) sizes]
  rw [h]
  exact List.mem_cons_self _ _

/-! ## Claims about the Icon Rounder -/

/-- C2: the rounder output has the same width and height as the input
image: the mask has the image size, ImageOps.fit to that size is a
dimension-preserving pass-through, and putalpha keeps the dimensions. -/
theorem claim2_rounder_preserves_dimensions (img : Image) (ratio : ℚ) :
    (roundedOutput img ratio).width = img.width ∧
    (roundedOutput img ratio).height = img.height :=
  ⟨rfl, rfl⟩

/-- C5: every failure path of the rounder CLI exits 1 (usage error with
fewer than two arguments, or any processing exception, reported as
"Error processing image: ..."), and the success path exits 0 printing
"Created processed icon at ...". -/
theorem claim5_rounder_exit_codes (env : Env) (argv : List String) :
    (argv.length < 3 →
      process_icon_main env argv
        = ⟨[], ["Usage: python3 process_icon.py <input> <output>"], 1⟩) ∧
    (3 ≤ argv.length →
      ((process_icon_main env argv).exitCode = 0 ∧
        (process_icon_main env argv).printed
          = ["Created processed icon at " ++ argv.getD 2 ""]) ∨
      ((process_icon_main env argv).exitCode = 1 ∧
        ∃ e, (process_icon_main env argv).printed
          = ["Error processing image: " ++ e])) := by
  constructor
  · intro h
    simp only [process_icon_main, if_pos h]
  · intro h
    simp only [process_icon_main, if_neg (by omega : ¬ argv.length < 3)]
    cases hl : env.load (argv.getD 1 "") with
    | error e =>
        exact Or.inr ⟨by simp only [create_rounded_icon, hl],
                      e, by simp only [create_rounded_icon, hl]⟩
    | ok img =>
        cases hs : env.saveOk (argv.getD 2 "") with
        | some e =>
            exact Or.inr ⟨by simp only [create_rounded_icon, hl, hs],
                          e, by simp only [create_rounded_icon, hl, hs]⟩
        | none =>
            exact Or.inl ⟨by simp only [create_rounded_icon, hl, hs],
                          by simp only [create_rounded_icon, hl, hs]⟩

/-- Witness for C5: a usage-error invocation and a successful invocation at
concrete arguments. -/
theorem claim5_witness :
    process_icon_main envAllOk ["process_icon.py"]
      = ⟨[], ["Usage: python3 process_icon.py <input> <output>"], 1⟩ :=
  (claim5_rounder_exit_codes envAllOk ["process_icon.py"]).1 (by decide)

/-- C7: the grayscale mask always has exactly the dimensions of the source
image, and every mask pixel is exactly 255 or exactly 0. -/
theorem claim7_mask_invariant (img : Image) (ratio : ℚ) (x y : Nat) :
    (maskOf img ratio).width = img.width ∧
    (maskOf img ratio).height = img.height ∧
    (maskOf img ratio).mode = "L" ∧
    (grayAt (maskOf img ratio) x y = 255 ∨ grayAt (maskOf img ratio) x y = 0) := by
  refine ⟨rfl, rfl, rfl, ?_⟩
  simp only [grayAt, maskOf, convertRGBA, roundedRectMask]
  by_cases h : inRoundedRect img.width img.height (radiusUsed img ratio) x y = true
  · left; simp [h]
  · right; simp [h]

/-- C8: the rounder is deterministic: two runs on the same input with the
same ratio produce identical results, both at the level of the whole run
and of the output image pixels. -/
theorem claim8_rounder_deterministic (env1 env2 : Env) (inp out : String)
    (r1 r2 : ℚ) (henv : env1 = env2) (hr : r1 = r2) :
    create_rounded_icon env1 inp out r1 = create_rounded_icon env2 inp out r2 ∧
    ∀ img : Image, roundedOutput img r1 = roundedOutput img r2 := by
  subst henv
  subst hr
  exact ⟨rfl, fun _ => rfl⟩

/-- Witness for C8 at a concrete environment, paths and ratio. -/
theorem claim8_witness :
    create_rounded_icon envAllOk "in.png" "out.png" (11 / 50)
      = create_rounded_icon envAllOk "in.png" "out.png" (11 / 50) :=
  (claim8_rounder_deterministic envAllOk envAllOk "in.png" "out.png"
    (11 / 50) (11 / 50) rfl rfl).1

/-- C9: the rounder CLI accepts only the two paths, so every CLI invocation
runs create_rounded_icon with the default ratio 0.22, and the radius used is
min(width, height) * 0.22. -/
theorem claim9_cli_default_ratio (env : Env) (argv : List String)
    (h : 3 ≤ argv.length) :
    process_icon_main env argv
      = create_rounded_icon env (argv.getD 1 "") (argv.getD 2 "") (11 / 50) ∧
    defaultCornerRatio = 11 / 50 ∧
    (∀ img : Image,
      radiusUsed img defaultCornerRatio
        = ((min img.width img.height : Nat) : ℚ) * (11 / 50)) := by
  refine ⟨?_, rfl, fun _ => rfl⟩
  simp only [process_icon_main, if_neg (by omega : ¬ argv.length < 3)]
  rfl

/-- Witness for C9 at a concrete argument list. -/
theorem claim9_witness :
    process_icon_main envAllOk ["process_icon.py", "in.png", "out.png"]
      = create_rounded_icon envAllOk "in.png" "out.png" (11 / 50) :=
  (claim9_cli_default_ratio envAllOk ["process_icon.py", "in.png", "out.png"]
    (by decide)).1

/-! ## The alpha channel of the rounder output -/

/-- The alpha channel of the rounder output is exactly the mask: 255 on
pixels inside the rounded rectangle, 0 outside, independent of the color
content. -/
theorem alphaAt_roundedOutput (img : Image) (ratio : ℚ) (x y : Nat) :
    alphaAt (roundedOutput img ratio) x y
      = if inRoundedRect img.width img.height (radiusUsed img ratio) x y
        then 255 else 0 := rfl

/-- The exact top-left pixel (0, 0) is outside the rounded rectangle for
every positive radius below half of each dimension. -/
theorem notInRR_topLeft (w h : Nat) (R : ℚ) (hR : 0 < R)
    (hw : 2 * R < (w : ℚ)) (hh : 2 * R < (h : ℚ)) :
    inRoundedRect w h R 0 0 = false := by
  simp only [inRoundedRect, decide_eq_false_iff_not, not_le]
  push_cast
  rw [min_eq_left (by linarith : (0 : ℚ) ≤ (w : ℚ) - R),
      min_eq_left (by linarith : (0 : ℚ) ≤ (h : ℚ) - R),
      max_eq_left (by linarith : (0 : ℚ) ≤ R)]
  nlinarith [mul_pos hR hR]

/-- The exact top-right pixel (w - 1, 0) is outside the rounded rectangle
once the radius exceeds one pixel.  The box drawn by the script is
[(0, 0), (w, h)], one pixel beyond the last pixel column, so the right arc
center sits at x = w - R rather than w - 1 - R. -/
theorem notInRR_topRight (w h : Nat) (R : ℚ) (h1 : 1 < R) (hw1 : 1 ≤ w)
    (hw : 2 * R < (w : ℚ)) (hh : 2 * R < (h : ℚ)) :
    inRoundedRect w h R (w - 1) 0 = false := by
  simp only [inRoundedRect, decide_eq_false_iff_not, not_le]
  rw [Nat.cast_sub hw1]
  push_cast
  rw [min_eq_right (by linarith : (w : ℚ) - R ≤ (w : ℚ) - 1),
      max_eq_right (by linarith : R ≤ (w : ℚ) - R),
      min_eq_left (by linarith : (0 : ℚ) ≤ (h : ℚ) - R),
      max_eq_left (by linarith : (0 : ℚ) ≤ R)]
  nlinarith [mul_pos (sub_pos.mpr h1) (sub_pos.mpr h1)]

/-- The exact bottom-left pixel (0, h - 1) is outside the rounded rectangle
once the radius exceeds one pixel. -/
theorem notInRR_bottomLeft (w h : Nat) (R : ℚ) (h1 : 1 < R) (hh1 : 1 ≤ h)
    (hw : 2 * R < (w : ℚ)) (hh : 2 * R < (h : ℚ)) :
    inRoundedRect w h R 0 (h - 1) = false := by
  simp only [inRoundedRect, decide_eq_false_iff_not, not_le]
  rw [Nat.cast_sub hh1]
  push_cast
  rw [min_eq_left (by linarith : (0 : ℚ) ≤ (w : ℚ) - R),
      max_eq_left (by linarith : (0 : ℚ) ≤ R),
      min_eq_right (by linarith : (h : ℚ) - R ≤ (h : ℚ) - 1),
      max_eq_right (by linarith : R ≤ (h : ℚ) - R)]
  nlinarith [mul_pos (sub_pos.mpr h1) (sub_pos.mpr h1)]

/-- The exact bottom-right pixel (w - 1, h - 1) is outside the rounded
rectangle iff 2 * (R - 1) ^ 2 exceeds R ^ 2, that is R above 2 + sqrt 2:
because of the one-pixel overshoot of the drawn box, this pixel lies at
distance (R - 1) * sqrt 2 from the bottom-right arc center. -/
theorem notInRR_bottomRight (w h : Nat) (R : ℚ) (h1 : 1 < R)
    (h2 : R ^ 2 < 2 * (R - 1) ^ 2) (hw1 : 1 ≤ w) (hh1 : 1 ≤ h)
    (hw : 2 * R < (w : ℚ)) (hh : 2 * R < (h : ℚ)) :
    inRoundedRect w h R (w - 1) (h - 1) = false := by
  simp only [inRoundedRect, decide_eq_false_iff_not, not_le]
  rw [Nat.cast_sub hw1, Nat.cast_sub hh1]
  push_cast
  rw [min_eq_right (by linarith : (w : ℚ) - R ≤ (w : ℚ) - 1),
      max_eq_right (by linarith : R ≤ (w : ℚ) - R),
      min_eq_right (by linarith : (h : ℚ) - R ≤ (h : ℚ) - 1),
      max_eq_right (by linarith : R ≤ (h : ℚ) - R)]
  nlinarith

/-- A coordinate within half a pixel of the clamped band center: the
distance from n to its clamp into [R, s - R] is at most 1/2 whenever n is
the floor of s / 2 (characterized by the two linear bounds). -/
theorem centerCoordClose (R s n : ℚ) (hs : 2 * R < s)
    (hn1 : n ≤ s / 2) (hn2 : s - 1 ≤ 2 * n) :
    (n - max R (min n (s - R))) ^ 2 ≤ 1 / 4 := by
  rw [min_eq_left (by linarith : n ≤ s - R)]
  rcases le_total R n with h | h
  · rw [max_eq_right h, sub_self]
    norm_num
  · rw [max_eq_left h]
    have hd0 : 0 ≤ R - n := by linarith
    have hd1 : R - n ≤ 1 / 2 := by linarith
    nlinarith [mul_nonneg hd0 (by linarith : (0 : ℚ) ≤ 1 / 2 - (R - n))]

/-- The center pixel (floor of w/2, floor of h/2) is inside the rounded
rectangle whenever the radius exceeds one pixel. -/
theorem inRR_center (w h : Nat) (R : ℚ) (h1 : 1 < R)
    (hw : 2 * R < (w : ℚ)) (hh : 2 * R < (h : ℚ)) :
    inRoundedRect w h R (w / 2) (h / 2) = true := by
  simp only [inRoundedRect, decide_eq_true_eq]
  have hwn1 : ((w / 2 : Nat) : ℚ) ≤ (w : ℚ) / 2 := by
    have hn : ((2 * (w / 2) : Nat) : ℚ) ≤ ((w : Nat) : ℚ) :=
      Nat.cast_le.mpr (by omega)
    push_cast at hn
    linarith
  have hwn2 : (w : ℚ) - 1 ≤ 2 * ((w / 2 : Nat) : ℚ) := by
    have hn : ((w : Nat) : ℚ) ≤ ((2 * (w / 2) + 1 : Nat) : ℚ) :=
      Nat.cast_le.mpr (by omega)
    push_cast at hn
    linarith
  have hhn1 : ((h / 2 : Nat) : ℚ) ≤ (h : ℚ) / 2 := by
    have hn : ((2 * (h / 2) : Nat) : ℚ) ≤ ((h : Nat) : ℚ) :=
      Nat.cast_le.mpr (by omega)
    push_cast at hn
    linarith
  have hhn2 : (h : ℚ) - 1 ≤ 2 * ((h / 2 : Nat) : ℚ) := by
    have hn : ((h : Nat) : ℚ) ≤ ((2 * (h / 2) + 1 : Nat) : ℚ) :=
      Nat.cast_le.mpr (by omega)
    push_cast at hn
    linarith
  have cx := centerCoordClose R (w : ℚ) ((w / 2 : Nat) : ℚ) hw hwn1 hwn2
  have cy := centerCoordClose R (h : ℚ) ((h / 2 : Nat) : ℚ) hh hhn1 hhn2
  nlinarith [cx, cy, mul_pos (sub_pos.mpr h1) (sub_pos.mpr h1)]

/-- C3 counterexample: the claim fails as stated.  On a 4 x 4 image with
the default ratio the radius is 0.88, the bottom-right corner pixel (3, 3)
sits on the boundary of the region (because the drawn box overshoots by one
pixel) and its alpha is 255, not 0; and on a 1 x 1 image the center pixel
(0, 0) coincides with the corner pixel and its alpha is 0, not 255.  The
ratio 0.22 lies strictly between 0 and 0.5 in both cases. -/
theorem claim3_counterexample :
    (0 : ℚ) < 11 / 50 ∧ (11 / 50 : ℚ) < 1 / 2 ∧
    alphaAt (roundedOutput img4 (11 / 50)) (img4.width - 1) (img4.height - 1)
      = 255 ∧
    alphaAt (roundedOutput img1 (11 / 50)) (img1.width / 2) (img1.height / 2)
      = 0 := by
  refine ⟨by norm_num, by norm_num, ?_, ?_⟩
  · have hin : inRoundedRect 4 4 (22 / 25) 3 3 = true := by
      simp only [inRoundedRect, decide_eq_true_eq]
      push_cast
      rw [min_eq_left (by norm_num : (3 : ℚ) ≤ 4 - 22 / 25),
          max_eq_right (by norm_num : (22 / 25 : ℚ) ≤ 3)]
      norm_num
    have hr : radiusUsed img4 (11 / 50) = 22 / 25 := by
      show ((min 4 4 : Nat) : ℚ) * (11 / 50) = 22 / 25
      norm_num
    show (if inRoundedRect 4 4 (radiusUsed img4 (11 / 50)) 3 3 = true
          then (255 : Nat) else 0) = 255
    rw [hr, hin]
    rfl
  · have hin : inRoundedRect 1 1 (11 / 50) 0 0 = false := by
      simp only [inRoundedRect, decide_eq_false_iff_not, not_le]
      push_cast
      rw [min_eq_left (by norm_num : (0 : ℚ) ≤ 1 - 11 / 50),
          max_eq_left (by norm_num : (0 : ℚ) ≤ 11 / 50)]
      norm_num
    have hr : radiusUsed img1 (11 / 50) = 11 / 50 := by
      show ((min 1 1 : Nat) : ℚ) * (11 / 50) = 11 / 50
      norm_num
    show (if inRoundedRect 1 1 (radiusUsed img1 (11 / 50)) 0 0 = true
          then (255 : Nat) else 0) = 0
    rw [hr, hin]
    rfl

/-- C3 (amended): for every input image and corner_radius_ratio strictly
between 0 and 0.5 such that the computed radius min(w, h) * ratio exceeds
2 + sqrt 2 pixels (stated rationally: the radius is above 1 and its square
is below twice the square of the radius minus one), the output alpha is 0
at the four exact corner pixels and 255 at the center pixel. -/
theorem claim3_corner_alpha_amended (img : Image) (ratio : ℚ)
    (hw1 : 1 ≤ img.width) (hh1 : 1 ≤ img.height)
    (hr0 : 0 < ratio) (hr5 : ratio < 1 / 2)
    (h1 : 1 < radiusUsed img ratio)
    (h2 : radiusUsed img ratio ^ 2 < 2 * (radiusUsed img ratio - 1) ^ 2) :
    alphaAt (roundedOutput img ratio) 0 0 = 0 ∧
    alphaAt (roundedOutput img ratio) (img.width - 1) 0 = 0 ∧
    alphaAt (roundedOutput img ratio) 0 (img.height - 1) = 0 ∧
    alphaAt (roundedOutput img ratio) (img.width - 1) (img.height - 1) = 0 ∧
    alphaAt (roundedOutput img ratio) (img.width / 2) (img.height / 2)
      = 255 := by
  have hR0 : 0 < radiusUsed img ratio := lt_trans one_pos h1
  have hminw : ((min img.width img.height : Nat) : ℚ) ≤ (img.width : ℚ) :=
    Nat.cast_le.mpr (Nat.min_le_left _ _)
  have hminh : ((min img.width img.height : Nat) : ℚ) ≤ (img.height : ℚ) :=
    Nat.cast_le.mpr (Nat.min_le_right _ _)
  have hw0 : (1 : ℚ) ≤ (img.width : ℚ) := by exact_mod_cast hw1
  have hh0 : (1 : ℚ) ≤ (img.height : ℚ) := by exact_mod_cast hh1
  have hWc : 2 * radiusUsed img ratio < (img.width : ℚ) := by
    have hrw : radiusUsed img ratio
        = ((min img.width img.height : Nat) : ℚ) * ratio := rfl
    rw [hrw]
    linarith [mul_le_mul_of_nonneg_right hminw (le_of_lt hr0),
      mul_lt_mul_of_pos_left hr5 (show (0 : ℚ) < (img.width : ℚ) by linarith)]
  have hHc : 2 * radiusUsed img ratio < (img.height : ℚ) := by
    have hrw : radiusUsed img ratio
        = ((min img.width img.height : Nat) : ℚ) * ratio := rfl
    rw [hrw]
    linarith [mul_le_mul_of_nonneg_right hminh (le_of_lt hr0),
      mul_lt_mul_of_pos_left hr5 (show (0 : ℚ) < (img.height : ℚ) by linarith)]
  refine ⟨?_, ?_, ?_, ?_, ?_⟩
  · rw [alphaAt_roundedOutput,
        notInRR_topLeft img.width img.height (radiusUsed img ratio) hR0 hWc hHc]
    rfl
  · rw [alphaAt_roundedOutput,
        notInRR_topRight img.width img.height (radiusUsed img ratio) h1 hw1 hWc hHc]
    rfl
  · rw [alphaAt_roundedOutput,
        notInRR_bottomLeft img.width img.height (radiusUsed img ratio) h1 hh1 hWc hHc]
    rfl
  · rw [alphaAt_roundedOutput,
        notInRR_bottomRight img.width img.height (radiusUsed img ratio) h1 h2 hw1
          hh1 hWc hHc]
    rfl
  · rw [alphaAt_roundedOutput,
        inRR_center img.width img.height (radiusUsed img ratio) h1 hWc hHc]
    rfl

/-- Witness for C3 (amended) at a concrete 100 x 100 image with the default
ratio, where the radius is 22. -/
theorem claim3_witness :
    alphaAt (roundedOutput testImg (11 / 50)) 0 0 = 0 ∧
    alphaAt (roundedOutput testImg (11 / 50)) 99 0 = 0 ∧
    alphaAt (roundedOutput testImg (11 / 50)) 0 99 = 0 ∧
    alphaAt (roundedOutput testImg (11 / 50)) 99 99 = 0 ∧
    alphaAt (roundedOutput testImg (11 / 50)) 50 50 = 255 :=
  claim3_corner_alpha_amended testImg (11 / 50) (by decide) (by decide)
    (by norm_num) (by norm_num)
    (by show (1 : ℚ) < ((min 100 100 : Nat) : ℚ) * (11 / 50); norm_num)
    (by show (((min 100 100 : Nat) : ℚ) * (11 / 50)) ^ 2
          < 2 * (((min 100 100 : Nat) : ℚ) * (11 / 50) - 1) ^ 2
        norm_num)

end SharpGlass
